import Mathlib

/-!
Shallow embedding of the `memories-client` mobile shell (the richest variant
of `App.tsx`): the navigation policy engine, the host classifier and the
update-gate state machine, together with proofs about the specification's
claims.

JavaScript strings are modelled as Lean `String`; the JS string methods used
by the source (`trim`, `startsWith`, `toLowerCase`) are modelled explicitly
on the underlying character lists.  The WHATWG `new URL` parser is an
environment facility, modelled as a parameter
`parse : String → Option URLParts` returning the `host` and `pathname`
properties read by the code (`none` models a parse exception).
-/

/-- Whitespace test used by the model of JS `String.prototype.trim`. -/
def wsChar (c : Char) : Bool := c.isWhitespace

/-- Drop whitespace from both ends of a character list (JS `trim`). -/
def trimList (l : List Char) : List Char :=
  ((l.dropWhile wsChar).reverse.dropWhile wsChar).reverse

/-- Model of JS `s.trim()`. -/
def jsTrim (s : String) : String := String.mk (trimList s.toList)

/-- Model of JS `s.startsWith(p)`. -/
def jsStartsWith (s p : String) : Bool := p.toList.isPrefixOf s.toList

/-- Model of JS `s.toLowerCase()`. -/
def jsToLower (s : String) : String := String.mk (s.toList.map Char.toLower)

/-- Source constant `BASE_URL`. -/
def BASE_URL : String := "https://maybe-someone-saw.vercel.app/"

/-- Source constant `ALLOWED_HOSTS`. -/
def ALLOWED_HOSTS : List String :=
  [ "maybe-someone-saw.vercel.app", "open.spotify.com", "spotify.com",
    "accounts.spotify.com"]

/-- Source function `normalizeTag`: trim, then ensure a leading `v`.  The
defensive `(t || '')` of the source is the identity on actual strings. -/
def normalizeTag (t : String) : String :=
  let s := jsTrim t
  if jsStartsWith s "v" then s else "v" ++ s

/-- The `localReleaseTag` memo of the source: the baked-in `RELEASE_TAG`
extra, normalized when it is a nonempty string, else the empty string
(`t ? normalizeTag(t) : ''`). -/
def localReleaseTagOf (releaseTag : String) : String :=
  if releaseTag = "" then "" else normalizeTag releaseTag

/-- Source type `ClientUpdateInfo`. -/
structure ClientUpdateInfo where
  requiredVersion : Option String
  apkUrl : Option String
deriving DecidableEq

/-- Outcome of the network interaction inside `fetchUpdateInfo`: a parsed 2xx
JSON body (each field given when present with string type), a non-2xx HTTP
status, or a thrown exception (network failure or malformed response body)
carrying the optional string `message` property of the thrown value. -/
inductive FetchOutcome where
  | ok (requiredVersion : Option String) (apkUrl : Option String)
  | httpError (status : Nat)
  | thrown (message : Option String)
deriving DecidableEq

/-- Source function `fetchUpdateInfo`: a non-2xx response throws an `Error`
whose message is `update_check_failed:<status>`; a 2xx body yields the
normalized `requiredVersion` (when the field is a string) and `apkUrl`.
The error side carries the thrown error's `message` property (`none` when
that property is not a string). -/
def fetchUpdateInfo : FetchOutcome → Except (Option String) ClientUpdateInfo
  | .ok rv apk => .ok ⟨rv.map normalizeTag, apk⟩
  | .httpError status => .error (some ("update_check_failed:" ++ toString status))
  | .thrown msg => .error msg

/-- The update-gate React state touched by the update-check effect. -/
structure GateState where
  checkingUpdate : Bool
  updateRequired : Bool
  updateInfo : Option ClientUpdateInfo
  updateError : String
deriving DecidableEq

/-- The `useState` initial values of the gate. -/
def initialGate : GateState :=
  { checkingUpdate := true
    updateRequired := false
    updateInfo := none
    updateError := "" }

/-- Result of one run of the update-check effect: the resulting gate state
and whether `fetchUpdateInfo` (hence the network request) was invoked. -/
structure GateRun where
  state : GateState
  fetchAttempted : Bool
deriving DecidableEq

/-- The update-check effect of the source (`useEffect` body): set
`checkingUpdate`, clear the diagnostic, return early without fetching when
`localReleaseTag` is empty, otherwise fetch and either compare the
truthiness-filtered normalized required version against `localReleaseTag`
or fail closed with the thrown error's message; `finally` clears
`checkingUpdate`. -/
def updateCheckRun (localReleaseTag : String) (outcome : FetchOutcome)
    (g : GateState) : GateRun :=
  let g := { g with checkingUpdate := true, updateError := "" }
  if localReleaseTag = "" then
    { state := { g with updateRequired := false, checkingUpdate := false }
      fetchAttempted := false }
  else
    match fetchUpdateInfo outcome with
    | .ok info =>
      let g := { g with updateInfo := some info }
      let required :=
        match info.requiredVersion with
        | some r => if r = "" then "" else normalizeTag r
        | none => ""
      if required = "" then
        { state := { g with updateRequired := false, checkingUpdate := false }
          fetchAttempted := true }
      else
        { state :=
            { g with
              updateRequired := decide (required ≠ localReleaseTag)
              checkingUpdate := false }
          fetchAttempted := true }
    | .error msg =>
      let m := match msg with | some s => s | none => "update_check_failed"
      { state :=
          { g with
            updateRequired := true
            updateError := m
            checkingUpdate := false }
        fetchAttempted := true }

/-- State transformation of one update-check run. -/
def updateCheckStep (localReleaseTag : String) (outcome : FetchOutcome)
    (g : GateState) : GateState :=
  (updateCheckRun localReleaseTag outcome g).state

/-- Gate state after the startup update check. -/
def updateCheck (localReleaseTag : String) (outcome : FetchOutcome) : GateState :=
  updateCheckStep localReleaseTag outcome initialGate

/-- The `host` and `pathname` properties the code reads off `new URL(u)`. -/
structure URLParts where
  host : String
  pathname : String
deriving DecidableEq

/-- Argument of `onShouldStartLoadWithRequest`: the `url` field when it is a
string, and the `isTopFrame` field when it is a boolean. -/
structure NavRequest where
  url : Option String
  isTopFrame : Option Bool
deriving DecidableEq

/-- A policy decision: whether the navigation may proceed in place, and the
list of URLs handed to `openExternal` while deciding (in order). -/
structure NavDecision where
  allow : Bool
  dispatched : List String
deriving DecidableEq

/-- The `baseHost` memo: `new URL(BASE_URL).host`, or the empty string when
parsing throws. -/
def baseHostOf (parse : String → Option URLParts) : String :=
  match parse BASE_URL with
  | some u => u.host
  | none => ""

/-- Source function `isExternalToBase`: hosts on the allow-list or equal to
the (truthy) base host are internal; parse failures are internal; everything
else is external. -/
def isExternalToBase (parse : String → Option URLParts) (baseHost : String)
    (url : String) : Bool :=
  match parse url with
  | some u =>
    if ALLOWED_HOSTS.contains u.host then false
    else if baseHost ≠ "" ∧ u.host = baseHost then false
    else true
  | none => false

/-- Source function `onShouldStartLoadWithRequest`, the navigation policy
engine.  Mirrors the source's decision order: empty URL allows; `spotify:` /
`intent:` veto and dispatch; `mailto:` / `tel:` / `sms:` veto and dispatch;
for `http(s)` a top-level navigation to a partner music host outside
`/embed/` vetoes, then a top-level navigation external to the base
vetoes, otherwise the navigation is allowed (the inner `try`/`catch`
around the partner-host parse skips that check on a parse exception). -/
def onShouldStartLoadWithRequest (parse : String → Option URLParts)
    (req : NavRequest) : NavDecision :=
  let url := match req.url with | some s => s | none => ""
  if url = "" then { allow := true, dispatched := [] }
  else
    let isTopFrame := match req.isTopFrame with | some b => b | none => true
    if jsStartsWith url "spotify:" || jsStartsWith url "intent:" then
      { allow := false, dispatched := [url] }
    else if jsStartsWith url "mailto:" || jsStartsWith url "tel:" ||
        jsStartsWith url "sms:" then
      { allow := false, dispatched := [url] }
    else if jsStartsWith url "http://" || jsStartsWith url "https://" then
      let spotifyVeto : Bool :=
        isTopFrame &&
          (match parse url with
           | some u =>
             (jsToLower u.host == "open.spotify.com" ||
                 jsToLower u.host == "spotify.com")
               && ! jsStartsWith u.pathname "/embed/"
           | none => false)
      if spotifyVeto then { allow := false, dispatched := [url] }
      else if isTopFrame && isExternalToBase parse (baseHostOf parse) url then
        { allow := false, dispatched := [url] }
      else { allow := true, dispatched := [] }
    else { allow := true, dispatched := [] }

/-- Source function `onNavigationStateChange`: the safety-net listener on
completed navigations, returning the URLs it hands to `openExternal`. -/
def onNavigationStateChange (navUrl : Option String) : List String :=
  let url := match navUrl with | some s => s | none => ""
  if url = "" then []
  else if jsStartsWith url "mailto:" || jsStartsWith url "tel:" ||
      jsStartsWith url "sms:" then [url]
  else []

/-- Shell state relevant to what the render function mounts. -/
structure ShellState where
  gate : GateState
  hasError : Bool
deriving DecidableEq

/-- Initial shell state (`useState` initials). -/
def initialShell : ShellState := { gate := initialGate, hasError := false }

/-- What the second render branch of the shell shows. -/
inductive MainSurface where
  | errorScreen
  | webview
deriving DecidableEq

/-- The main-content branch of the shell's JSX:
`hasError ? error-screen : (!checkingUpdate && !updateRequired) ? WebView :
null`. -/
def renderMainSurface (s : ShellState) : Option MainSurface :=
  if s.hasError then some MainSurface.errorScreen
  else if !s.gate.checkingUpdate && !s.gate.updateRequired then
    some MainSurface.webview
  else none

/-- Whether the embedded browser surface is mounted by the render. -/
def webViewMounted (s : ShellState) : Bool :=
  decide (renderMainSurface s = some MainSurface.webview)

/-- The update gate is in its `NOT_REQUIRED` state: the check has completed
and did not demand an update. -/
def gateNotRequired (s : ShellState) : Bool :=
  !s.gate.checkingUpdate && !s.gate.updateRequired

/-- Events that drive the shell state the render reads. -/
inductive ShellEvent where
  | updateResolve (outcome : FetchOutcome)
  | webViewError
  | webViewLoadStart
  | retryPress

/-- Small-step transition relation of the shell.  The update-check effect
resolves while the gate is checking; WebView load/error callbacks can only
fire while the WebView is mounted; the retry button only exists on the
error screen. -/
inductive ShellStep (localTag : String) : ShellState → ShellEvent → ShellState → Prop where
  | updateResolve (s : ShellState) (o : FetchOutcome)
      (hg : s.gate.checkingUpdate = true) :
      ShellStep localTag s (.updateResolve o)
        { gate := updateCheckStep localTag o s.gate, hasError := s.hasError }
  | webViewError (s : ShellState) (hm : webViewMounted s = true) :
      ShellStep localTag s .webViewError { gate := s.gate, hasError := true }
  | webViewLoadStart (s : ShellState) (hm : webViewMounted s = true) :
      ShellStep localTag s .webViewLoadStart { gate := s.gate, hasError := false }
  | retryPress (s : ShellState) (he : s.hasError = true) :
      ShellStep localTag s .retryPress { gate := s.gate, hasError := false }

/-- States reachable from shell startup. -/
inductive ShellReachable (localTag : String) : ShellState → Prop where
  | init : ShellReachable localTag initialShell
  | step {s s' : ShellState} {e : ShellEvent} :
      ShellReachable localTag s → ShellStep localTag s e s' →
      ShellReachable localTag s'

/-! Auxiliary lemmas about `dropWhile`, used to reason about `jsTrim`. -/

/-- The head surviving `dropWhile` fails the predicate. -/
lemma dropWhile_head_false (p : Char → Bool) :
    ∀ (l : List Char) (a : Char) (t : List Char),
      l.dropWhile p = a :: t → p a = false := by
  intro l
  induction l with
  | nil => intro a t h; simp at h
  | cons b l ih =>
    intro a t h
    rw [ List.dropWhile_cons] at h
    by_cases hb : p b = true
    · rw [if_pos hb] at h
      exact ih a t h
    · rw [if_neg hb] at h
      injection h with h1 _
      subst h1
      simpa using hb

/-- A list whose head fails the predicate is unchanged by `dropWhile`. -/
lemma dropWhile_eq_self_of_head (p : Char → Bool) (l : List Char)
    (h : ∀ a t, l = a :: t → p a = false) : l.dropWhile p = l := by
  cases l with
  | nil => rfl
  | cons a t =>
    rw [ List.dropWhile_cons]
    simp [h a t rfl]

/-- Applying `dropWhile` twice is the same as applying it once. -/
lemma dropWhile_dropWhile (p : Char → Bool) (l : List Char) :
    (l.dropWhile p).dropWhile p = l.dropWhile p :=
  dropWhile_eq_self_of_head p _ (fun a t h => dropWhile_head_false p l a t h)

/-- The original list is some dropped part followed by the `dropWhile`
result. -/
lemma exists_append_dropWhile (p : Char → Bool) (l : List Char) :
    ∃ t, t ++ l.dropWhile p = l := by
  induction l with
  | nil => exact ⟨[], rfl⟩
  | cons a l ih =>
    by_cases ha : p a = true
    · obtain ⟨t, ht⟩ := ih
      refine ⟨a :: t, ?_⟩
      rw [ List.dropWhile_cons, if_pos ha]
      simpa using ht
    · refine ⟨[], ?_⟩
      rw [ List.dropWhile_cons, if_neg ha]
      rfl

/-- A trimmed list has no leading whitespace. -/
lemma dropWhile_trimList (l : List Char) :
    (trimList l).dropWhile wsChar = trimList l := by
  apply dropWhile_eq_self_of_head
  intro a t h
  obtain ⟨r, hr⟩ := exists_append_dropWhile wsChar ((l.dropWhile wsChar).reverse)
  have hA : l.dropWhile wsChar = trimList l ++ r.reverse := by
    have h2 := congrArg List.reverse hr
    simp only [ List.reverse_append, List.reverse_reverse] at h2
    rw [← h2]
    simp [trimList]
  rw [h] at hA
  exact dropWhile_head_false wsChar l a (t ++ r.reverse) (by simpa using hA)

/-- A trimmed list has no trailing whitespace. -/
lemma reverse_dropWhile_trimList (l : List Char) :
    (trimList l).reverse.dropWhile wsChar = (trimList l).reverse := by
  have h : (trimList l).reverse = ((l.dropWhile wsChar).reverse).dropWhile wsChar := by
    simp [trimList]
  rw [h]
  exact dropWhile_dropWhile wsChar _

/-- Trimming is idempotent. -/
lemma trimList_idem (l : List Char) : trimList (trimList l) = trimList l := by
  show (((trimList l).dropWhile wsChar).reverse.dropWhile wsChar).reverse = trimList l
  rw [dropWhile_trimList, reverse_dropWhile_trimList, List.reverse_reverse]

/-- Prepending a non-whitespace character to a trimmed list leaves the
result trimmed. -/
lemma trimList_cons_of_not_ws (c : Char) (hc : wsChar c = false) (l : List Char) :
    trimList (c :: trimList l) = c :: trimList l := by
  have h1 : (c :: trimList l).dropWhile wsChar = c :: trimList l := by
    rw [ List.dropWhile_cons]
    simp [hc]
  show (((c :: trimList l).dropWhile wsChar).reverse.dropWhile wsChar).reverse
      = c :: trimList l
  rw [h1]
  have h2 : (c :: trimList l).reverse.dropWhile wsChar = (c :: trimList l).reverse := by
    apply dropWhile_eq_self_of_head
    intro a t h
    rw [ List.reverse_cons] at h
    cases hB : (trimList l).reverse with
    | nil =>
      rw [hB] at h
      simp at h
      obtain ⟨rfl, -⟩ := h
      exact hc
    | cons d R =>
      rw [hB] at h
      have hd : wsChar d = false := by
        apply dropWhile_head_false wsChar ((trimList l).reverse) d R
        rw [reverse_dropWhile_trimList, hB]
      simp at h
      obtain ⟨rfl, -⟩ := h
      exact hd
  rw [h2, List.reverse_reverse]

/-! String-level facts about the modelled JS methods and `normalizeTag`. -/

/-- Appending at string level is appending of the character lists. -/
lemma toList_append (s t : String) : (s ++ t).toList = s.toList ++ t.toList :=
  String.data_append ..

/-- A string with a nonempty character list is not the empty string. -/
lemma ne_empty_of_toList (s : String) (h : s.toList ≠ []) : s ≠ "" :=
  fun he => h (he ▸ rfl)

/-- The JS trim model is idempotent. -/
lemma jsTrim_jsTrim (s : String) : jsTrim (jsTrim s) = jsTrim s := by
  show String.mk (trimList (trimList s.toList)) = String.mk (trimList s.toList)
  rw [trimList_idem]

/-- Trimming a `v`-prefixed already-trimmed string changes nothing. -/
lemma jsTrim_v_append_jsTrim (s : String) :
    jsTrim ("v" ++ jsTrim s) = "v" ++ jsTrim s := by
  apply String.ext
  show trimList (("v" ++ jsTrim s).toList) = ("v" ++ jsTrim s).toList
  rw [toList_append]
  show trimList ( 'v' :: trimList s.toList) = 'v' :: trimList s.toList
  exact trimList_cons_of_not_ws 'v' (by decide) s.toList

/-- A string starting with a literal `v` satisfies the JS check. -/
lemma jsStartsWith_v_append (x : String) : jsStartsWith ("v" ++ x) "v" = true := by
  show ([ 'v'].isPrefixOf ("v" ++ x).toList) = true
  rw [toList_append]
  show ([ 'v'].isPrefixOf ( 'v' :: x.toList)) = true
  simp [ List.isPrefixOf]

/-- The normalized tag is never the empty string. -/
lemma normalizeTag_ne_empty (t : String) : normalizeTag t ≠ "" := by
  by_cases h : jsStartsWith (jsTrim t) "v" = true
  · have h1 : normalizeTag t = jsTrim t := by simp [normalizeTag, h]
    rw [h1]
    apply ne_empty_of_toList
    intro hnil
    rw [jsStartsWith, hnil] at h
    simp [ List.isPrefixOf] at h
  · have h1 : normalizeTag t = "v" ++ jsTrim t := by simp [normalizeTag, h]
    rw [h1]
    apply ne_empty_of_toList
    rw [toList_append]
    show 'v' :: (jsTrim t).toList ≠ []
    simp

/-- Source-level idempotence: normalizing twice equals normalizing once. -/
lemma normalizeTag_idem (t : String) :
    normalizeTag (normalizeTag t) = normalizeTag t := by
  by_cases h : jsStartsWith (jsTrim t) "v" = true
  · have h1 : normalizeTag t = jsTrim t := by simp [normalizeTag, h]
    rw [h1]
    simp [normalizeTag, jsTrim_jsTrim, h]
  · have h1 : normalizeTag t = "v" ++ jsTrim t := by simp [normalizeTag, h]
    rw [h1]
    simp [normalizeTag, jsTrim_v_append_jsTrim, jsStartsWith_v_append]

/-- Two prefixes of the same string are comparable. -/
lemma jsStartsWith_comparable (s p q : String)
    (hp : jsStartsWith s p = true) (hq : jsStartsWith s q = true) :
    p.toList <+: q.toList ∨ q.toList <+: p.toList :=
  List.prefix_or_prefix_of_prefix
    ( List.isPrefixOf_iff_prefix.mp hp) ( List.isPrefixOf_iff_prefix.mp hq)

/-- A string starting with `p` cannot also start with an incomparable `q`. -/
lemma jsStartsWith_excl (s p q : String) (hp : jsStartsWith s p = true)
    (h1 : p.toList.isPrefixOf q.toList = false)
    (h2 : q.toList.isPrefixOf p.toList = false) :
    jsStartsWith s q = false := by
  cases hq : jsStartsWith s q
  · rfl
  · rcases jsStartsWith_comparable s p q hp hq with h | h
    · exact absurd (h1.symm.trans ( List.isPrefixOf_iff_prefix.mpr h)) (by decide)
    · exact absurd (h2.symm.trans ( List.isPrefixOf_iff_prefix.mpr h)) (by decide)

/-- A string starting with a nonempty prefix is nonempty. -/
lemma jsStartsWith_ne_empty (s p : String) (hp : jsStartsWith s p = true)
    (hne : p.toList ≠ []) : ¬ (s = "") := by
  intro he
  subst he
  cases hl : p.toList with
  | nil => exact hne hl
  | cons a t =>
    rw [jsStartsWith, hl] at hp
    simp [ List.isPrefixOf] at hp

/-! Evaluation lemmas for the update-check effect with a present local tag. -/

/-- Update check on a 2xx body whose `requiredVersion` field is a string. -/
lemma updateCheck_ok_some (tag s : String) (apk : Option String) (htag : tag ≠ "") :
    updateCheck tag (.ok (some s) apk) =
      { checkingUpdate := false
        updateRequired := decide (normalizeTag s ≠ tag)
        updateInfo := some ⟨some (normalizeTag s), apk⟩
        updateError := "" } := by
  simp [updateCheck, updateCheckStep, updateCheckRun, fetchUpdateInfo, htag,
    normalizeTag_ne_empty s, normalizeTag_idem, initialGate]

/-- Update check on a 2xx body whose `requiredVersion` field is absent or not
a string. -/
lemma updateCheck_ok_none (tag : String) (apk : Option String) (htag : tag ≠ "") :
    updateCheck tag (.ok none apk) =
      { checkingUpdate := false
        updateRequired := false
        updateInfo := some ⟨none, apk⟩
        updateError := "" } := by
  simp [updateCheck, updateCheckStep, updateCheckRun, fetchUpdateInfo, htag,
    initialGate]

/-- Update check on a non-2xx response. -/
lemma updateCheck_httpError (tag : String) (status : Nat) (htag : tag ≠ "") :
    updateCheck tag (.httpError status) =
      { checkingUpdate := false
        updateRequired := true
        updateInfo := none
        updateError := "update_check_failed:" ++ toString status } := by
  simp [updateCheck, updateCheckStep, updateCheckRun, fetchUpdateInfo, htag,
    initialGate]

/-- Update check when the fetch or the body parse throws. -/
lemma updateCheck_thrown (tag : String) (msg : Option String) (htag : tag ≠ "") :
    updateCheck tag (.thrown msg) =
      { checkingUpdate := false
        updateRequired := true
        updateInfo := none
        updateError := match msg with | some m => m | none => "update_check_failed" } := by
  cases msg <;>
    simp [updateCheck, updateCheckStep, updateCheckRun, fetchUpdateInfo, htag,
      initialGate]

/-- A present `RELEASE_TAG` yields the normalized local tag, which is
nonempty. -/
lemma localReleaseTagOf_of_ne (rt : String) (hrt : rt ≠ "") :
    localReleaseTagOf rt = normalizeTag rt ∧ localReleaseTagOf rt ≠ "" := by
  rw [localReleaseTagOf, if_neg hrt]
  exact ⟨rfl, normalizeTag_ne_empty rt⟩

/-- C1 (amended): for a present LocalVersionTag and a successful response,
an absent (or non-string) required-version field resolves the gate to
NOT_REQUIRED; an empty-string required-version field is normalized to the
tag "v" and compared like any other tag, so it resolves to NOT_REQUIRED
exactly when the local tag is "v", otherwise to REQUIRED. -/
theorem updateGate_requiredVersion_field_rule (rt : String) (hrt : rt ≠ "")
    (apk : Option String) :
    ((updateCheck (localReleaseTagOf rt) (.ok none apk)).updateRequired = false ∧
      (updateCheck (localReleaseTagOf rt) (.ok none apk)).checkingUpdate = false) ∧
    (((updateCheck (localReleaseTagOf rt) (.ok (some "") apk)).updateRequired = false ↔
        localReleaseTagOf rt = "v") ∧
      (updateCheck (localReleaseTagOf rt) (.ok (some "") apk)).checkingUpdate = false) := by
  obtain ⟨-, htag⟩ := localReleaseTagOf_of_ne rt hrt
  refine ⟨?_, ?_, ?_⟩
  · rw [updateCheck_ok_none _ apk htag]
    exact ⟨rfl, rfl⟩
  · rw [updateCheck_ok_some _ "" apk htag]
    have hv : normalizeTag "" = "v" := by decide
    rw [hv]
    constructor
    · intro h
      exact (not_not.mp (of_decide_eq_false h)).symm
    · intro h
      exact decide_eq_false (by rw [h]; exact not_not.mpr rfl)
  · rw [updateCheck_ok_some _ "" apk htag]

/-- C1 counterexample: with LocalVersionTag `v1.2.0`, a successful response
whose required-version field is the empty string resolves the gate to
REQUIRED, not NOT_REQUIRED as the claim states. -/
theorem updateGate_emptyRequiredVersion_blocks :
    (updateCheck (localReleaseTagOf "v1.2.0") (.ok (some "") none)).updateRequired
      = true := by decide

/-- C3 (amended): with a present LocalVersionTag, every failed fetch (non-2xx
status, network error, or malformed body) resolves the gate to REQUIRED and
never to NOT_REQUIRED; for a non-2xx status the diagnostic is
`update_check_failed:<status>`, which contains the status code and is
nonempty; for a thrown error the diagnostic is the error's message when that
is a string (hence possibly empty when the message is the empty string) and
the nonempty default `update_check_failed` otherwise. -/
theorem updateGate_failClosed (rt : String) (hrt : rt ≠ "") :
    (∀ status : Nat,
      (updateCheck (localReleaseTagOf rt) (.httpError status)).updateRequired = true ∧
      (updateCheck (localReleaseTagOf rt) (.httpError status)).checkingUpdate = false ∧
      (updateCheck (localReleaseTagOf rt) (.httpError status)).updateError
        = "update_check_failed:" ++ toString status ∧
      (updateCheck (localReleaseTagOf rt) (.httpError status)).updateError ≠ "") ∧
    (∀ msg : Option String,
      (updateCheck (localReleaseTagOf rt) (.thrown msg)).updateRequired = true ∧
      (updateCheck (localReleaseTagOf rt) (.thrown msg)).checkingUpdate = false ∧
      (msg ≠ some "" →
        (updateCheck (localReleaseTagOf rt) (.thrown msg)).updateError ≠ "")) := by
  obtain ⟨-, htag⟩ := localReleaseTagOf_of_ne rt hrt
  constructor
  · intro status
    rw [updateCheck_httpError _ status htag]
    refine ⟨rfl, rfl, rfl, ?_⟩
    apply ne_empty_of_toList
    rw [toList_append]
    simp
  · intro msg
    rw [updateCheck_thrown _ msg htag]
    refine ⟨rfl, rfl, ?_⟩
    intro hmsg
    cases msg with
    | none => decide
    | some m =>
      have hm : m ≠ "" := fun he => hmsg (by rw [he])
      simpa using hm

/-- C3 counterexample: a thrown error whose `message` property is the empty
string leaves an empty diagnostic (while still resolving REQUIRED), so the
claimed "non-empty diagnostic string" fails for that input. -/
theorem updateGate_emptyDiagnostic_counterexample :
    (updateCheck (localReleaseTagOf "v1.2.0") (.thrown (some ""))).updateRequired
        = true ∧
    (updateCheck (localReleaseTagOf "v1.2.0") (.thrown (some ""))).updateError
        = "" := by decide

/-- C6: with a present LocalVersionTag and a successful response carrying a
nonempty string required-version, both tags are normalized and the gate
resolves NOT_REQUIRED exactly when the normalized tags are equal, otherwise
REQUIRED, storing the normalized required tag. -/
theorem updateGate_normalized_comparison (rt s : String) (apk : Option String)
    (hrt : rt ≠ "") (_hs : s ≠ "") :
    (updateCheck (localReleaseTagOf rt) (.ok (some s) apk)).checkingUpdate = false ∧
    (updateCheck (localReleaseTagOf rt) (.ok (some s) apk)).updateInfo
      = some ⟨some (normalizeTag s), apk⟩ ∧
    ((updateCheck (localReleaseTagOf rt) (.ok (some s) apk)).updateRequired = false ↔
      normalizeTag s = normalizeTag rt) := by
  obtain ⟨heq, htag⟩ := localReleaseTagOf_of_ne rt hrt
  rw [updateCheck_ok_some _ s apk htag, heq]
  refine ⟨rfl, rfl, ?_⟩
  simp

/-- C7: with LocalVersionTag absent, the update-check effect resolves the
gate directly to NOT_REQUIRED, never invokes the network fetch, and its
result does not depend on any would-be fetch outcome. -/
theorem updateGate_absentLocalTag_skipsFetch (o o' : FetchOutcome) :
    (updateCheckRun (localReleaseTagOf "") o initialGate).fetchAttempted = false ∧
    (updateCheckRun (localReleaseTagOf "") o initialGate).state
      = { checkingUpdate := false
          updateRequired := false
          updateInfo := none
          updateError := "" } ∧
    updateCheckRun (localReleaseTagOf "") o initialGate
      = updateCheckRun (localReleaseTagOf "") o' initialGate :=
  ⟨rfl, rfl, rfl⟩

/-- C9: the update check is idempotent: re-running the effect on the state it
produced, with the identical server outcome, yields that same state. -/
theorem updateGate_check_idempotent (tag : String) (o : FetchOutcome) :
    updateCheckStep tag o (updateCheck tag o) = updateCheck tag o := by
  by_cases htag : tag = ""
  · subst htag
    cases o <;> rfl
  · cases o with
    | ok rv apk =>
      cases rv with
      | none =>
        simp [updateCheck, updateCheckStep, updateCheckRun, fetchUpdateInfo, htag]
      | some s =>
        by_cases hs : (if (normalizeTag s) = "" then "" else normalizeTag (normalizeTag s)) = ""
        · simp [updateCheck, updateCheckStep, updateCheckRun, fetchUpdateInfo, htag, hs]
        · simp [updateCheck, updateCheckStep, updateCheckRun, fetchUpdateInfo, htag, hs]
    | httpError status =>
      simp [updateCheck, updateCheckStep, updateCheckRun, fetchUpdateInfo, htag]
    | thrown msg =>
      cases msg <;>
        simp [updateCheck, updateCheckStep, updateCheckRun, fetchUpdateInfo, htag]

/-! Scheme-prefix exclusion facts used to walk the policy if-chain. -/

/-- A URL beginning with one of the contact schemes begins with none of the
app-deep-link schemes. -/
lemma contact_not_deeplink (url : String)
    (h : jsStartsWith url "mailto:" = true ∨ jsStartsWith url "tel:" = true ∨
      jsStartsWith url "sms:" = true) :
    jsStartsWith url "spotify:" = false ∧ jsStartsWith url "intent:" = false := by
  rcases h with h | h | h
  · exact ⟨jsStartsWith_excl url "mailto:" "spotify:" h (by decide) (by decide),
      jsStartsWith_excl url "mailto:" "intent:" h (by decide) (by decide)⟩
  · exact ⟨jsStartsWith_excl url "tel:" "spotify:" h (by decide) (by decide),
      jsStartsWith_excl url "tel:" "intent:" h (by decide) (by decide)⟩
  · exact ⟨jsStartsWith_excl url "sms:" "spotify:" h (by decide) (by decide),
      jsStartsWith_excl url "sms:" "intent:" h (by decide) (by decide)⟩

/-- A URL beginning with a web scheme begins with none of the special
schemes of the earlier policy branches. -/
lemma web_scheme_exclusions (url : String)
    (h : jsStartsWith url "http://" = true ∨ jsStartsWith url "https://" = true) :
    jsStartsWith url "spotify:" = false ∧ jsStartsWith url "intent:" = false ∧
    jsStartsWith url "mailto:" = false ∧ jsStartsWith url "tel:" = false ∧
    jsStartsWith url "sms:" = false := by
  rcases h with h | h
  · exact ⟨jsStartsWith_excl url "http://" "spotify:" h (by decide) (by decide),
      jsStartsWith_excl url "http://" "intent:" h (by decide) (by decide),
      jsStartsWith_excl url "http://" "mailto:" h (by decide) (by decide),
      jsStartsWith_excl url "http://" "tel:" h (by decide) (by decide),
      jsStartsWith_excl url "http://" "sms:" h (by decide) (by decide)⟩
  · exact ⟨jsStartsWith_excl url "https://" "spotify:" h (by decide) (by decide),
      jsStartsWith_excl url "https://" "intent:" h (by decide) (by decide),
      jsStartsWith_excl url "https://" "mailto:" h (by decide) (by decide),
      jsStartsWith_excl url "https://" "tel:" h (by decide) (by decide),
      jsStartsWith_excl url "https://" "sms:" h (by decide) (by decide)⟩

/-- C5: any navigation whose URL begins with `mailto:`, `tel:` or `sms:` is
vetoed regardless of frame level, with exactly one external-dispatch attempt
for that decision. -/
theorem policy_contact_schemes_veto (parse : String → Option URLParts)
    (req : NavRequest) (url : String) (hurl : req.url = some url)
    (h : jsStartsWith url "mailto:" = true ∨ jsStartsWith url "tel:" = true ∨
      jsStartsWith url "sms:" = true) :
    onShouldStartLoadWithRequest parse req = { allow := false, dispatched := [url] } := by
  obtain ⟨ou, otf⟩ := req
  simp only at hurl
  subst hurl
  have hne : ¬ (url = "") := by
    rcases h with h | h | h
    · exact jsStartsWith_ne_empty url "mailto:" h (by decide)
    · exact jsStartsWith_ne_empty url "tel:" h (by decide)
    · exact jsStartsWith_ne_empty url "sms:" h (by decide)
  obtain ⟨hs, hi⟩ := contact_not_deeplink url h
  have hc : (jsStartsWith url "mailto:" || jsStartsWith url "tel:" ||
      jsStartsWith url "sms:") = true := by
    rcases h with h | h | h <;> simp [h]
  simp only [onShouldStartLoadWithRequest]
  rw [if_neg hne]
  simp [hs, hi, hc]

/-- C10: a request whose `isTopFrame` field is absent or not a boolean is
decided exactly like a top-level-frame request. -/
theorem policy_missing_isTopFrame_defaults_topLevel
    (parse : String → Option URLParts) (u : Option String) :
    onShouldStartLoadWithRequest parse { url := u, isTopFrame := none }
      = onShouldStartLoadWithRequest parse { url := u, isTopFrame := some true } := rfl

/-- C4: a top-level web navigation to a partner music host (canonical
lowercase `open.spotify.com` or `spotify.com`, as produced by the URL
parser) is vetoed with one external dispatch when its path is not under
`/embed/`; with a path under `/embed/` it is allowed in place, and any
non-top-level navigation to that host is allowed in place. -/
theorem policy_spotify_topframe_rule (parse : String → Option URLParts)
    (url : String) (u : URLParts)
    (hscheme : jsStartsWith url "http://" = true ∨ jsStartsWith url "https://" = true)
    (hparse : parse url = some u)
    (hcanon : jsToLower u.host = u.host)
    (hhost : jsToLower u.host = "open.spotify.com" ∨ jsToLower u.host = "spotify.com") :
    (jsStartsWith u.pathname "/embed/" = false →
      onShouldStartLoadWithRequest parse { url := some url, isTopFrame := some true }
        = { allow := false, dispatched := [url] }) ∧
    (jsStartsWith u.pathname "/embed/" = true →
      onShouldStartLoadWithRequest parse { url := some url, isTopFrame := some true }
        = { allow := true, dispatched := [] }) ∧
    onShouldStartLoadWithRequest parse { url := some url, isTopFrame := some false }
      = { allow := true, dispatched := [] } := by
  have hne : ¬ (url = "") := by
    rcases hscheme with h | h
    · exact jsStartsWith_ne_empty url "http://" h (by decide)
    · exact jsStartsWith_ne_empty url "https://" h (by decide)
  obtain ⟨hs, hi, hm, ht, hsms⟩ := web_scheme_exclusions url hscheme
  have hweb : (jsStartsWith url "http://" || jsStartsWith url "https://") = true := by
    rcases hscheme with h | h <;> simp [h]
  have hu : u.host = "open.spotify.com" ∨ u.host = "spotify.com" := by
    rcases hhost with h | h
    · exact Or.inl (hcanon ▸ h)
    · exact Or.inr (hcanon ▸ h)
  have hmem : u.host ∈ ALLOWED_HOSTS := by
    rcases hu with h | h <;> rw [h] <;> decide
  refine ⟨?_, ?_, ?_⟩
  · intro hembed
    simp only [onShouldStartLoadWithRequest]
    rw [if_neg hne]
    rcases hhost with h | h <;>
      simp [hs, hi, hm, ht, hsms, hweb, hparse, h, hembed]
  · intro hembed
    simp only [onShouldStartLoadWithRequest]
    rw [if_neg hne]
    simp [hs, hi, hm, ht, hsms, hweb, hparse, hembed, isExternalToBase, hmem]
  · simp only [onShouldStartLoadWithRequest]
    rw [if_neg hne]
    simp [hs, hi, hm, ht, hsms, hweb]

/-- C8: the host classifier is total and fail-open on parse failures: for
any URL string the parser rejects it returns `false` (not external), and the
policy engine allows such a navigation in place with no dispatch.  The
hypothesis `hp` records the URL Standard behaviour that strings carrying one
of the policy's special scheme prefixes always parse. -/
theorem hostClassifier_malformed_failOpen (parse : String → Option URLParts)
    (url baseHost : String) (tf : Option Bool)
    (hp : ∀ s : String,
      (jsStartsWith s "spotify:" = true ∨ jsStartsWith s "intent:" = true ∨
        jsStartsWith s "mailto:" = true ∨ jsStartsWith s "tel:" = true ∨
        jsStartsWith s "sms:" = true) → parse s ≠ none)
    (hfail : parse url = none) :
    isExternalToBase parse baseHost url = false ∧
    onShouldStartLoadWithRequest parse { url := some url, isTopFrame := tf }
      = { allow := true, dispatched := [] } := by
  constructor
  · simp [isExternalToBase, hfail]
  · have hs : jsStartsWith url "spotify:" = false := by
      cases h : jsStartsWith url "spotify:"
      · rfl
      · exact absurd hfail (hp url (Or.inl h))
    have hi : jsStartsWith url "intent:" = false := by
      cases h : jsStartsWith url "intent:"
      · rfl
      · exact absurd hfail (hp url (Or.inr (Or.inl h)))
    have hm : jsStartsWith url "mailto:" = false := by
      cases h : jsStartsWith url "mailto:"
      · rfl
      · exact absurd hfail (hp url (Or.inr (Or.inr (Or.inl h))))
    have ht : jsStartsWith url "tel:" = false := by
      cases h : jsStartsWith url "tel:"
      · rfl
      · exact absurd hfail (hp url (Or.inr (Or.inr (Or.inr (Or.inl h)))))
    have hsms : jsStartsWith url "sms:" = false := by
      cases h : jsStartsWith url "sms:"
      · rfl
      · exact absurd hfail (hp url (Or.inr (Or.inr (Or.inr (Or.inr h)))))
    by_cases hne : url = ""
    · subst hne
      rfl
    · simp only [onShouldStartLoadWithRequest]
      rw [if_neg hne]
      simp [hs, hi, hm, ht, hsms, hfail, isExternalToBase]

/-- One shell step preserves the fact that an error display implies the gate
already resolved NOT_REQUIRED. -/
lemma shell_step_error_gate (tag : String) {s s' : ShellState} {e : ShellEvent}
    (hstep : ShellStep tag s e s')
    (ih : s.hasError = true → gateNotRequired s = true) :
    s'.hasError = true → gateNotRequired s' = true := by
  cases hstep with
  | updateResolve o hg =>
    intro he
    have hgate := ih he
    rw [gateNotRequired, hg] at hgate
    simp at hgate
  | webViewError hm =>
    intro _
    simp only [webViewMounted] at hm
    have hr' := of_decide_eq_true hm
    rw [renderMainSurface] at hr'
    by_cases he : s.hasError
    · simp [he] at hr'
    · simp [he] at hr'
      simp [gateNotRequired, hr'.1, hr'.2]
  | webViewLoadStart hm => intro he; simp at he
  | retryPress he' => intro he; simp at he

/-- Invariant of the shell: a page-load error state can only be reached
after the gate resolved NOT_REQUIRED (errors are raised by the mounted
WebView, and the gate never leaves NOT_REQUIRED afterwards). -/
lemma shell_error_gate_invariant (tag : String) (s : ShellState)
    (h : ShellReachable tag s) : s.hasError = true → gateNotRequired s = true := by
  induction h with
  | init => intro he; simp [initialShell] at he
  | step hr hstep ih => exact shell_step_error_gate tag hstep ih

/-- C2 (amended): in every reachable shell state, the embedded browser is
mounted exactly when the gate is NOT_REQUIRED and no page-load error is
displayed; moreover an error state is only reachable with the gate
NOT_REQUIRED. -/
theorem shell_webview_render_rule (tag : String) (s : ShellState)
    (h : ShellReachable tag s) :
    webViewMounted s = (gateNotRequired s && !s.hasError) ∧
    (s.hasError = true → gateNotRequired s = true) := by
  refine ⟨?_, shell_error_gate_invariant tag s h⟩
  rw [webViewMounted, renderMainSurface, gateNotRequired]
  by_cases he : s.hasError
  · simp [he]
  · cases hc : (!s.gate.checkingUpdate && !s.gate.updateRequired) <;> simp [he, hc]

/-- C2 counterexample: with LocalVersionTag `v1.2.0` and a matching server
response, the shell reaches the state where the WebView raised a load error:
there the gate is NOT_REQUIRED yet the browser is not mounted, refuting the
claimed biconditional. -/
theorem shell_webview_mount_iff_counterexample :
    ¬ (∀ s : ShellState, ShellReachable "v1.2.0" s →
        (webViewMounted s = true ↔ gateNotRequired s = true)) := by
  intro h
  have h1 : ShellStep "v1.2.0" initialShell
      (.updateResolve (.ok (some "1.2.0") none))
      { gate := updateCheckStep "v1.2.0" (.ok (some "1.2.0") none) initialShell.gate
        hasError := initialShell.hasError } :=
    ShellStep.updateResolve initialShell (.ok (some "1.2.0") none) rfl
  have r1 := ShellReachable.step ShellReachable.init h1
  have h2 : ShellStep "v1.2.0"
      { gate := updateCheckStep "v1.2.0" (.ok (some "1.2.0") none) initialShell.gate
        hasError := initialShell.hasError }
      .webViewError
      { gate := ({ gate := updateCheckStep "v1.2.0" (.ok (some "1.2.0") none) initialShell.gate
                   hasError := initialShell.hasError } : ShellState).gate
        hasError := true } :=
    ShellStep.webViewError _ (by decide)
  have r2 := ShellReachable.step r1 h2
  have hmount := (h _ r2).mpr (by decide)
  exact absurd hmount (by decide)

/-! Concrete witnesses instantiating the theorems with hypotheses. -/

/-- Concrete parser fixture used by the partner-host witness. -/
def spotifyWitnessParse : String → Option URLParts := fun s =>
  if s = "https://open.spotify.com/track/123" then
    some { host := "open.spotify.com", pathname := "/track/123" }
  else if s = "https://open.spotify.com/embed/track/123" then
    some { host := "open.spotify.com", pathname := "/embed/track/123" }
  else none

/-- Concrete parser fixture for the malformed-URL witness: it parses exactly
the strings bearing one of the policy's special scheme prefixes. -/
def schemeOnlyWitnessParse : String → Option URLParts := fun s =>
  if jsStartsWith s "spotify:" || jsStartsWith s "intent:" ||
      jsStartsWith s "mailto:" || jsStartsWith s "tel:" ||
      jsStartsWith s "sms:" then
    some { host := "", pathname := "" }
  else none

/-- Witness for the amended C1 at LocalVersionTag `v1.2.0`. -/
theorem updateGate_requiredVersion_field_rule_witness :
    ( "v1.2.0" : String) ≠ "" ∧
    (updateCheck (localReleaseTagOf "v1.2.0") (.ok none none)).updateRequired = false ∧
    ((updateCheck (localReleaseTagOf "v1.2.0") (.ok (some "") none)).updateRequired = false ↔
      localReleaseTagOf "v1.2.0" = "v") :=
  ⟨by decide,
    (updateGate_requiredVersion_field_rule "v1.2.0" (by decide) none).1.1,
    (updateGate_requiredVersion_field_rule "v1.2.0" (by decide) none).2.1⟩

/-- Witness for the amended C2 at the initial shell state. -/
theorem shell_webview_render_rule_witness :
    webViewMounted initialShell
      = (gateNotRequired initialShell && !initialShell.hasError) ∧
    (initialShell.hasError = true → gateNotRequired initialShell = true) :=
  shell_webview_render_rule "v1.2.0" initialShell ShellReachable.init

/-- Witness for the amended C3 at LocalVersionTag `v1.2.0` and HTTP 500. -/
theorem updateGate_failClosed_witness :
    ( "v1.2.0" : String) ≠ "" ∧
    (updateCheck (localReleaseTagOf "v1.2.0") (.httpError 500)).updateRequired = true ∧
    (updateCheck (localReleaseTagOf "v1.2.0") (.httpError 500)).updateError
      = "update_check_failed:" ++ toString 500 :=
  ⟨by decide,
    ((updateGate_failClosed "v1.2.0" (by decide)).1 500).1,
    ((updateGate_failClosed "v1.2.0" (by decide)).1 500).2.2.1⟩

/-- Witness for C4 at the spec's example URLs. -/
theorem policy_spotify_topframe_rule_witness :
    onShouldStartLoadWithRequest spotifyWitnessParse
        { url := some "https://open.spotify.com/track/123", isTopFrame := some true }
      = { allow := false, dispatched := [ "https://open.spotify.com/track/123"] } ∧
    onShouldStartLoadWithRequest spotifyWitnessParse
        { url := some "https://open.spotify.com/embed/track/123", isTopFrame := some true }
      = { allow := true, dispatched := [] } ∧
    onShouldStartLoadWithRequest spotifyWitnessParse
        { url := some "https://open.spotify.com/track/123", isTopFrame := some false }
      = { allow := true, dispatched := [] } :=
  ⟨(policy_spotify_topframe_rule spotifyWitnessParse "https://open.spotify.com/track/123"
      { host := "open.spotify.com", pathname := "/track/123" }
      (Or.inr (by decide)) (by decide) (by decide) (Or.inl (by decide))).1 (by decide),
    (policy_spotify_topframe_rule spotifyWitnessParse
      "https://open.spotify.com/embed/track/123"
      { host := "open.spotify.com", pathname := "/embed/track/123" }
      (Or.inr (by decide)) (by decide) (by decide) (Or.inl (by decide))).2.1 (by decide),
    (policy_spotify_topframe_rule spotifyWitnessParse "https://open.spotify.com/track/123"
      { host := "open.spotify.com", pathname := "/track/123" }
      (Or.inr (by decide)) (by decide) (by decide) (Or.inl (by decide))).2.2⟩

/-- Witness for C5 at a concrete `mailto:` URL in a sub-frame. -/
theorem policy_contact_schemes_veto_witness :
    onShouldStartLoadWithRequest (fun _ => none)
        { url := some "mailto:someone@example.com", isTopFrame := some false }
      = { allow := false, dispatched := [ "mailto:someone@example.com"] } :=
  policy_contact_schemes_veto (fun _ => none) _ "mailto:someone@example.com" rfl
    (Or.inl (by decide))

/-- Witness for C6 at the spec's end-to-end scenario. -/
theorem updateGate_normalized_comparison_witness :
    ((updateCheck (localReleaseTagOf "v1.2.0") (.ok (some "1.2.0") none)).updateRequired
        = false ↔ normalizeTag "1.2.0" = normalizeTag "v1.2.0") ∧
    (updateCheck (localReleaseTagOf "v1.2.0") (.ok (some "1.3.0") none)).updateInfo
      = some ⟨some (normalizeTag "1.3.0"), none⟩ :=
  ⟨(updateGate_normalized_comparison "v1.2.0" "1.2.0" none (by decide) (by decide)).2.2,
    (updateGate_normalized_comparison "v1.2.0" "1.3.0" none (by decide) (by decide)).2.1⟩

/-- Witness for C8 at a malformed URL string. -/
theorem hostClassifier_malformed_failOpen_witness :
    isExternalToBase schemeOnlyWitnessParse "maybe-someone-saw.vercel.app" "not a url"
      = false ∧
    onShouldStartLoadWithRequest schemeOnlyWitnessParse
        { url := some "not a url", isTopFrame := some true }
      = { allow := true, dispatched := [] } :=
  hostClassifier_malformed_failOpen schemeOnlyWitnessParse "not a url"
    "maybe-someone-saw.vercel.app" (some true)
    (fun s h => by
      simp only [schemeOnlyWitnessParse]
      rcases h with h | h | h | h | h <;> simp [h])
    (by decide)
